import Mathlib

/-!
Verification of the FactoryMES repository's natural-language specification
against a shallow embedding of its source code.

The repository is a Manufacturing Execution System for a fleet of 3D
printers.  The files under `frontend/` (and the unnamed dashboard
components) are present in the source snapshot; the FastAPI backend
services (`dispatcher.py`, `BedClearingService`, ...) are documented in the
architecture mapping but their code is not part of the snapshot, so the two
claims that depend on them are modelled from the specification text and
marked as such in their doc comments.

Numbers coming from JavaScript (`number` fields: temperatures, heights,
progress) are embedded as rationals; optional (`field?:`) and nullable
fields are embedded as `Option`.
-/

/-- Embeds `AmsSlot` from `types/printer` (src/unnamed/part_003):
`id?: string; ams_index: number; slot_index: number; color_hex?: string;
material?: string; remaining_percent?: number`. -/
structure AmsSlot where
  id : Option String
  ams_index : Nat
  slot_index : Nat
  color_hex : Option String
  material : Option String
  remaining_percent : Option ℚ
deriving DecidableEq, Repr

/-- Embeds the `Job` interface of
`src/frontend/src/types/api/filament.ts` (second section, lines 49-62):
`id, file_path, printer_id, status, required_material, required_color_hex,
used_ams_slot, started_at, finished_at, created_at`. -/
structure Job where
  id : Int
  file_path : String
  printer_id : Option String
  status : String
  required_material : String
  required_color_hex : Option String
  used_ams_slot : Option Int
  started_at : Option String
  finished_at : Option String
  created_at : String
deriving DecidableEq, Repr

/-- Embeds the `Printer` interface from `types/printer`
(src/unnamed/part_003, second variant, which carries the Phase 6/7
automation and error-tracking fields). -/
structure Printer where
  serial : String
  name : String
  ip_address : Option String
  type : String
  current_status : String
  current_progress : Option ℚ
  remaining_time : Option ℚ
  current_temp_nozzle : Option ℚ
  current_temp_bed : Option ℚ
  ams_inventory : Option (List AmsSlot)
  ams_slots : Option (List AmsSlot)
  is_plate_cleared : Option Bool
  hardware_model : Option String
  can_auto_eject : Option Bool
  thermal_release_temp : Option ℚ
  clearing_strategy : Option String
  last_error_code : Option String
  last_error_time : Option String
  last_error_description : Option String
  last_job : Option Job
deriving DecidableEq, Repr

/-- Embeds `canForceClear` from `PrinterDetailModal`
(src/unnamed/part_011 line 64):
`['IDLE', 'COOLDOWN', 'AWAITING_CLEARANCE'].includes(printer.current_status)`. -/
def canForceClear (printer : Printer) : Bool :=
  ["IDLE", "COOLDOWN", "AWAITING_CLEARANCE"].contains printer.current_status

/-- Embeds the first `JobStatus` union of
`src/frontend/src/types/api/filament.ts` (lines 17-24). -/
def JobStatusA : List String :=
  ["PENDING", "UPLOADING", "PRINTING", "FINISHED", "BED_CLEARING",
   "COMPLETED", "FAILED"]

/-- Embeds the second `JobStatus` union of
`src/frontend/src/types/api/filament.ts` (line 49). -/
def JobStatusB : List String :=
  ["PENDING", "PRINTING", "SUCCESS", "NEEDS_CLEARING", "FAILED"]

/-- A JavaScript value that may sit in the `part_height_mm` field of the
product form: a number, the empty string `''` (initial render state), JSON
`null`, or `undefined` (field missing). -/
inductive HeightVal where
  | num (q : ℚ)
  | emptyStr
  | null
  | undef
deriving DecidableEq, Repr

/-- JavaScript truthiness of a `part_height_mm` value (`0`, `''`, `null`
and `undefined` are falsy). -/
def HeightVal.truthy : HeightVal → Bool
  | .num q => q ≠ 0
  | _ => false

/-- The numeric value the two `superRefine` bodies work with: schema A
computes `data.part_height_mm ?? 0`, schema B computes
`typeof data.part_height_mm === 'number' ? data.part_height_mm : 0`; on
every value both validators can reach, the result coerced to a number for
the `< limit` comparison is the number itself or `0`. -/
def HeightVal.toNum : HeightVal → ℚ
  | .num q => q
  | _ => 0

/-- Input shape shared by the two `productFormSchema` artifacts
(src/unnamed/part_009 and src/frontend/src/lib/validations/product.ts). -/
structure ProductFormInput where
  name : String
  sku : Option String
  description : Option String
  print_file_id : Option ℚ
  generate_variants_for_profile_ids : Option (List String)
  part_height_mm : HeightVal
  is_continuous_printing : Option Bool
deriving DecidableEq, Repr

/-- Schema A (src/unnamed/part_009): field-level failures that abort the
object parse — an aborted parse skips `superRefine` in zod.  `print_file_id`
is required (`z.number(...)`), `generate_variants_for_profile_ids` is a
required array, and `part_height_mm : z.number().min(38).optional().nullable()`
rejects the empty string as a type error. -/
def productFormA_aborted (i : ProductFormInput) : Bool :=
  i.print_file_id.isNone || i.generate_variants_for_profile_ids.isNone ||
    (match i.part_height_mm with
     | .emptyStr => true
     | _ => false)

/-- Schema A: field-level issues that leave the parse merely dirty (zod
still runs `superRefine` on a dirty parse): `name.min(3)` and
`part_height_mm.min(38)` on a present numeric value. -/
def productFormA_fieldIssue (i : ProductFormInput) : Bool :=
  decide (i.name.length < 3) ||
    (match i.part_height_mm with
     | .num q => decide (q < 38)
     | _ => false)

/-- Schema A `superRefine` body (src/unnamed/part_009 lines 17-28): when
`is_continuous_printing` is truthy, it adds the safety issue whenever
`!data.part_height_mm || (data.part_height_mm ?? 0) < 38`. -/
def productFormA_refineIssue (i : ProductFormInput) : Bool :=
  i.is_continuous_printing.getD false &&
    (!i.part_height_mm.truthy || decide (i.part_height_mm.toNum < 38))

/-- Schema A overall: `safeParse` succeeds iff no abort, no field issue and
no refinement issue. -/
def productFormA_accepts (i : ProductFormInput) : Bool :=
  !productFormA_aborted i && !productFormA_fieldIssue i &&
    !productFormA_refineIssue i

/-- Schema B (src/frontend/src/lib/validations/product.ts) preprocesses
`part_height_mm`, turning `''` into `undefined` before the union
`z.union([z.number(), z.undefined(), z.null(), z.literal('')])`. -/
def productFormB_height (i : ProductFormInput) : HeightVal :=
  match i.part_height_mm with
  | .emptyStr => .undef
  | h => h

/-- Schema B: only `print_file_id` is required at type level; the
variants array defaults to `[]` and the height union accepts every
`HeightVal`. -/
def productFormB_aborted (i : ProductFormInput) : Bool :=
  i.print_file_id.isNone

/-- Schema B: field-level dirty issues — only `name.min(3)`; the height
field carries no `min` bound in this artifact. -/
def productFormB_fieldIssue (i : ProductFormInput) : Bool :=
  decide (i.name.length < 3)

/-- Schema B `superRefine` body (product.ts lines 21-32): when
`is_continuous_printing` is truthy, it adds the safety issue whenever
`!data.part_height_mm || height < 50` with
`height = typeof part_height_mm === 'number' ? part_height_mm : 0`. -/
def productFormB_refineIssue (i : ProductFormInput) : Bool :=
  i.is_continuous_printing.getD false &&
    (!(productFormB_height i).truthy ||
      decide ((productFormB_height i).toNum < 50))

/-- Schema B overall acceptance. -/
def productFormB_accepts (i : ProductFormInput) : Bool :=
  !productFormB_aborted i && !productFormB_fieldIssue i &&
    !productFormB_refineIssue i

/-- Claim C3: the manual force-clear command is offered (`canForceClear`
is `true`) exactly when the printer's `current_status` is one of the three
strings `IDLE`, `COOLDOWN`, `AWAITING_CLEARANCE`; every other status
string (including `PRINTING`, `CLEARING_BED`, `ERROR`, `PAUSED`,
`OFFLINE`, lowercase and unknown strings) disables the control. -/
theorem canForceClear_iff_status (p : Printer) :
    canForceClear p = true ↔
      p.current_status = "IDLE" ∨ p.current_status = "COOLDOWN" ∨
        p.current_status = "AWAITING_CLEARANCE" := by
  simp [canForceClear]

/-- Claim C5: the two `JobStatus` unions in `filament.ts` denote different
sets of strings; `SUCCESS` and `NEEDS_CLEARING` belong only to the second,
while `UPLOADING`, `FINISHED`, `BED_CLEARING` and `COMPLETED` belong only
to the first (and the shared members `PENDING`, `PRINTING`, `FAILED` are
in both). -/
theorem jobStatus_vocabularies_differ :
    (¬ ∀ s : String, s ∈ JobStatusA ↔ s ∈ JobStatusB) ∧
      "SUCCESS" ∈ JobStatusB ∧ "SUCCESS" ∉ JobStatusA ∧
      "NEEDS_CLEARING" ∈ JobStatusB ∧ "NEEDS_CLEARING" ∉ JobStatusA ∧
      "UPLOADING" ∈ JobStatusA ∧ "UPLOADING" ∉ JobStatusB ∧
      "FINISHED" ∈ JobStatusA ∧ "FINISHED" ∉ JobStatusB ∧
      "BED_CLEARING" ∈ JobStatusA ∧ "BED_CLEARING" ∉ JobStatusB ∧
      "COMPLETED" ∈ JobStatusA ∧ "COMPLETED" ∉ JobStatusB ∧
      "PENDING" ∈ JobStatusA ∧ "PENDING" ∈ JobStatusB ∧
      "PRINTING" ∈ JobStatusA ∧ "PRINTING" ∈ JobStatusB ∧
      "FAILED" ∈ JobStatusA ∧ "FAILED" ∈ JobStatusB := by
  refine ⟨fun h => ?_, ?_⟩
  · have := (h "SUCCESS").mpr (by decide)
    revert this
    decide
  · decide

/-- Claim C1: with `is_continuous_printing` set, schema A
(src/unnamed/part_009) accepts an input only if `part_height_mm` is a
present number at least the 38 mm safety minimum, and whenever
`part_height_mm` is missing, `null`, or a number below 38 the
`superRefine` body raises its safety issue and the input is rejected. -/
theorem productFormA_safety_gate (i : ProductFormInput)
    (hc : i.is_continuous_printing = some true) :
    (productFormA_accepts i = true →
      ∃ q, i.part_height_mm = HeightVal.num q ∧ 38 ≤ q) ∧
    ((i.part_height_mm = HeightVal.undef ∨ i.part_height_mm = HeightVal.null ∨
        ∃ q, i.part_height_mm = HeightVal.num q ∧ q < 38) →
      productFormA_refineIssue i = true ∧ productFormA_accepts i = false) := by
  constructor
  · intro hacc
    simp only [productFormA_accepts, Bool.and_eq_true, Bool.not_eq_true'] at hacc
    obtain ⟨⟨habort, hfield⟩, hrefine⟩ := hacc
    cases hpm : i.part_height_mm with
    | num q =>
        refine ⟨q, rfl, ?_⟩
        simp [productFormA_refineIssue, hc, hpm, HeightVal.truthy,
          HeightVal.toNum] at hrefine
        exact hrefine.2
    | emptyStr =>
        exfalso
        simp [productFormA_aborted, hpm] at habort
    | null =>
        exfalso
        simp [productFormA_refineIssue, hc, hpm, HeightVal.truthy] at hrefine
    | undef =>
        exfalso
        simp [productFormA_refineIssue, hc, hpm, HeightVal.truthy] at hrefine
  · intro hbad
    have hr : productFormA_refineIssue i = true := by
      rcases hbad with hpm | hpm | ⟨q, hpm, hlt⟩
      · simp [productFormA_refineIssue, hc, hpm, HeightVal.truthy]
      · simp [productFormA_refineIssue, hc, hpm, HeightVal.truthy]
      · simp [productFormA_refineIssue, hc, hpm, HeightVal.truthy,
          HeightVal.toNum]
        exact Or.inr hlt
    refine ⟨hr, ?_⟩
    simp [productFormA_accepts, hr]

/-- A continuous-printing input whose height (20 mm) is below the 38 mm
safety minimum, used to witness `productFormA_safety_gate`. -/
def shortPartInput : ProductFormInput :=
  { name := "Benchy", sku := none, description := none,
    print_file_id := some 1, generate_variants_for_profile_ids := some [],
    part_height_mm := .num 20, is_continuous_printing := some true }

/-- Witness for `productFormA_safety_gate` at a concrete 20 mm
continuous-printing input. -/
theorem productFormA_safety_gate_witness :
    (productFormA_accepts shortPartInput = true →
      ∃ q, shortPartInput.part_height_mm = HeightVal.num q ∧ 38 ≤ q) ∧
    (productFormA_refineIssue shortPartInput = true ∧
      productFormA_accepts shortPartInput = false) :=
  ⟨(productFormA_safety_gate shortPartInput rfl).1,
   (productFormA_safety_gate shortPartInput rfl).2
     (Or.inr (Or.inr ⟨20, rfl, by norm_num⟩))⟩

/-- A continuous-printing input with height 45 mm, strictly between the
38 mm bound of schema A and the 50 mm bound of schema B. -/
def midHeightInput : ProductFormInput :=
  { name := "Zylinder", sku := none, description := none,
    print_file_id := some 1, generate_variants_for_profile_ids := some [],
    part_height_mm := .num 45, is_continuous_printing := some true }

/-- Claim C4: the two `productFormSchema` artifacts encode different
safe-eject minima (38 mm vs 50 mm) and are not equivalent: the 45 mm
continuous-printing input is accepted by schema A
(src/unnamed/part_009) and rejected by schema B
(src/frontend/src/lib/validations/product.ts). -/
theorem productFormSchemas_disagree_at_45mm :
    productFormA_accepts midHeightInput = true ∧
      productFormB_accepts midHeightInput = false := by
  constructor <;> decide

/-- Embeds `PrinterCommandSchema`
(src/frontend/src/lib/api/printer-commands.ts lines 4-10): the closed enum
of operator commands. -/
inductive PrinterCommand where
  | CONFIRM_CLEARANCE
  | PAUSE_PRINT
  | RESUME_PRINT
  | CANCEL_PRINT
  | CLEAR_ERROR
deriving DecidableEq, Repr

/-- Embeds `PrinterCommandSchema.parse`: a zod enum parse succeeds exactly
on the five member strings and throws on everything else (`none`). -/
def PrinterCommandSchema_parse (s : String) : Option PrinterCommand :=
  if s = "CONFIRM_CLEARANCE" then some PrinterCommand.CONFIRM_CLEARANCE
  else if s = "PAUSE_PRINT" then some PrinterCommand.PAUSE_PRINT
  else if s = "RESUME_PRINT" then some PrinterCommand.RESUME_PRINT
  else if s = "CANCEL_PRINT" then some PrinterCommand.CANCEL_PRINT
  else if s = "CLEAR_ERROR" then some PrinterCommand.CLEAR_ERROR
  else none

/-- Embeds `CommandEndpointMap` (printer-commands.ts lines 17-23). -/
def CommandEndpointMap : PrinterCommand → String
  | PrinterCommand.CONFIRM_CLEARANCE => "/confirm-clearance"
  | PrinterCommand.PAUSE_PRINT => "/pause"
  | PrinterCommand.RESUME_PRINT => "/resume"
  | PrinterCommand.CANCEL_PRINT => "/cancel"
  | PrinterCommand.CLEAR_ERROR => "/clear-error"

/-- An HTTP request as the api clients build it: method and endpoint path
relative to the api base. -/
structure ApiRequest where
  method : String
  endpoint : String
deriving DecidableEq, Repr

/-- Embeds `sendPrinterCommand` (printer-commands.ts lines 28-35): parse
the command (throwing, i.e. `none`, on anything outside the enum), then
POST to `/printers/{id}` followed by the mapped endpoint. -/
def sendPrinterCommand (printerId command : String) : Option ApiRequest :=
  (PrinterCommandSchema_parse command).map
    (fun c =>
      { method := "POST",
        endpoint := "/printers/" ++ printerId ++ CommandEndpointMap c })

/-- Embeds `ClearingStrategy` (src/frontend/src/lib/api-client.ts section
two, line 28). -/
inductive ClearingStrategy where
  | MANUAL
  | A1_INERTIAL_FLING
  | X1_MECHANICAL_SWEEP
deriving DecidableEq, Repr

/-- Embeds the `AutomationConfig` interface (api-client.ts lines 30-34). -/
structure AutomationConfig where
  can_auto_eject : Option Bool
  thermal_release_temp : Option ℚ
  clearing_strategy : Option ClearingStrategy
deriving DecidableEq, Repr

/-- Embeds `forceClearPrinter` (api-client.ts lines 60-69): POST to
`/printers/{serial}/control/force-clear`. -/
def forceClearPrinter (printerSerial : String) : ApiRequest :=
  { method := "POST",
    endpoint := "/printers/" ++ printerSerial ++ "/control/force-clear" }

/-- Embeds `updateAutomationConfig` (api-client.ts lines 40-54): PATCH to
`/printers/{serial}/automation-config` carrying the config as body. -/
def updateAutomationConfig (printerSerial : String)
    (config : AutomationConfig) : ApiRequest × AutomationConfig :=
  ({ method := "PATCH",
     endpoint := "/printers/" ++ printerSerial ++ "/automation-config" },
   config)

/-- Claim C7: `sendPrinterCommand` accepts exactly the five operator
commands, dispatching each as a POST to its mapped endpoint, and the parse
fails (throws, so no request is built) for every other string; the
remaining spec verbs are covered by `forceClearPrinter`
(POST `.../control/force-clear`) and `updateAutomationConfig`
(PATCH `.../automation-config` carrying the automation settings). -/
theorem printerCommandSurface (id cmd : String) (cfg : AutomationConfig) :
    ((sendPrinterCommand id cmd).isSome = true ↔
      cmd ∈ ["CONFIRM_CLEARANCE", "PAUSE_PRINT", "RESUME_PRINT",
             "CANCEL_PRINT", "CLEAR_ERROR"]) ∧
    sendPrinterCommand id "CONFIRM_CLEARANCE" =
      some { method := "POST",
             endpoint := "/printers/" ++ id ++ "/confirm-clearance" } ∧
    sendPrinterCommand id "PAUSE_PRINT" =
      some { method := "POST", endpoint := "/printers/" ++ id ++ "/pause" } ∧
    sendPrinterCommand id "RESUME_PRINT" =
      some { method := "POST", endpoint := "/printers/" ++ id ++ "/resume" } ∧
    sendPrinterCommand id "CANCEL_PRINT" =
      some { method := "POST", endpoint := "/printers/" ++ id ++ "/cancel" } ∧
    sendPrinterCommand id "CLEAR_ERROR" =
      some { method := "POST",
             endpoint := "/printers/" ++ id ++ "/clear-error" } ∧
    forceClearPrinter id =
      { method := "POST",
        endpoint := "/printers/" ++ id ++ "/control/force-clear" } ∧
    updateAutomationConfig id cfg =
      ({ method := "PATCH",
         endpoint := "/printers/" ++ id ++ "/automation-config" }, cfg) := by
  refine ⟨?_, rfl, rfl, rfl, rfl, rfl, rfl, rfl⟩
  unfold sendPrinterCommand PrinterCommandSchema_parse
  split_ifs with h1 h2 h3 h4 h5 <;> simp_all

/-- Embeds the optimistic cache update of `usePrinterAction.onMutate` for
the `CONFIRM_CLEARANCE` command
(src/frontend/src/hooks/use-printer-action.ts lines 27-36):
`old.map(p => p.serial === printerId
  ? { ...p, current_status: 'IDLE', current_progress: 0 } : p)`. -/
def confirmClearanceOptimistic (printerId : String)
    (old : List Printer) : List Printer :=
  old.map (fun p =>
    if p.serial = printerId then
      { p with current_status := "IDLE", current_progress := some 0 }
    else p)

/-- Claim C8: the `CONFIRM_CLEARANCE` optimistic update preserves the list
length, leaves every printer whose serial differs from the target
unchanged, and rewrites the target printer to status `IDLE` with progress
`0` while preserving all of its other fields. -/
theorem confirmClearanceOptimistic_frame (printerId : String)
    (ps : List Printer) (i : Nat) (p q : Printer)
    (hp : ps.get? i = some p)
    (hq : (confirmClearanceOptimistic printerId ps).get? i = some q) :
    (confirmClearanceOptimistic printerId ps).length = ps.length ∧
    (p.serial ≠ printerId → q = p) ∧
    (p.serial = printerId →
      q.current_status = "IDLE" ∧ q.current_progress = some 0 ∧
      q.serial = p.serial ∧ q.name = p.name ∧
      q.ip_address = p.ip_address ∧ q.type = p.type ∧
      q.remaining_time = p.remaining_time ∧
      q.current_temp_nozzle = p.current_temp_nozzle ∧
      q.current_temp_bed = p.current_temp_bed ∧
      q.ams_inventory = p.ams_inventory ∧ q.ams_slots = p.ams_slots ∧
      q.is_plate_cleared = p.is_plate_cleared ∧
      q.hardware_model = p.hardware_model ∧
      q.can_auto_eject = p.can_auto_eject ∧
      q.thermal_release_temp = p.thermal_release_temp ∧
      q.clearing_strategy = p.clearing_strategy ∧
      q.last_error_code = p.last_error_code ∧
      q.last_error_time = p.last_error_time ∧
      q.last_error_description = p.last_error_description ∧
      q.last_job = p.last_job) := by
  have hq' : q =
      if p.serial = printerId then
        { p with current_status := "IDLE", current_progress := some 0 }
      else p := by
    rw [confirmClearanceOptimistic, List.get?_map, hp] at hq
    exact (Option.some.inj hq).symm
  refine ⟨by simp [confirmClearanceOptimistic], ?_, ?_⟩
  · intro hne
    rw [hq', if_neg hne]
  · intro heq
    rw [hq', if_pos heq]
    exact ⟨rfl, rfl, rfl, rfl, rfl, rfl, rfl, rfl, rfl, rfl, rfl, rfl, rfl,
      rfl, rfl, rfl, rfl, rfl, rfl, rfl⟩

/-- A concrete printer awaiting clearance, used to witness the frame
theorem of the optimistic update. -/
def clearancePrinter : Printer :=
  { serial := "P1", name := "Alpha", ip_address := none, type := "A1",
    current_status := "AWAITING_CLEARANCE", current_progress := some 100,
    remaining_time := none, current_temp_nozzle := none,
    current_temp_bed := none, ams_inventory := none, ams_slots := none,
    is_plate_cleared := none, hardware_model := none,
    can_auto_eject := none, thermal_release_temp := none,
    clearing_strategy := none, last_error_code := none,
    last_error_time := none, last_error_description := none,
    last_job := none }

/-- Witness for `confirmClearanceOptimistic_frame` on a concrete
one-printer cache. -/
theorem confirmClearanceOptimistic_frame_witness :
    (confirmClearanceOptimistic "P1" [clearancePrinter]).length =
      [clearancePrinter].length :=
  (confirmClearanceOptimistic_frame "P1" [clearancePrinter] 0
    clearancePrinter
    { clearancePrinter with
        current_status := "IDLE", current_progress := some 0 }
    rfl rfl).1

/-- Embeds `usePrinterAction.onMutate`
(use-printer-action.ts lines 19-45): snapshot the cache as
`previousPrinters`, apply the optimistic update only for
`CONFIRM_CLEARANCE` (the updater returns `previousPrinters`, leaving the
cache unchanged, when the cached value is `undefined`), and hand the
snapshot to the mutation context.  Returns (new cache, context). -/
def onMutateStep (printerId : String) (command : PrinterCommand)
    (cache : Option (List Printer)) :
    Option (List Printer) × Option (List Printer) :=
  let previousPrinters := cache
  let newCache :=
    if command = PrinterCommand.CONFIRM_CLEARANCE then
      match cache with
      | none => previousPrinters
      | some old => some (confirmClearanceOptimistic printerId old)
    else cache
  (newCache, previousPrinters)

/-- Embeds `usePrinterAction.onError`
(use-printer-action.ts lines 48-57): if the context carries a
`previousPrinters` snapshot (any array, even empty, is truthy), write it
back into the cache; otherwise leave the cache untouched. -/
def onErrorStep (previousPrinters : Option (List Printer))
    (cache : Option (List Printer)) : Option (List Printer) :=
  match previousPrinters with
  | some prev => some prev
  | none => cache

/-- The cache state after a failed mutation: `onMutate` runs first, the
request fails, then `onError` runs with the recorded context. -/
def failedMutationCache (printerId : String) (command : PrinterCommand)
    (cache : Option (List Printer)) : Option (List Printer) :=
  let r := onMutateStep printerId command cache
  onErrorStep r.2 r.1

/-- Claim C9: for every command and every initial cache state, a failed
printer-command mutation leaves the cached fleet state exactly equal to
its pre-command value: `onError` restores the snapshot taken by
`onMutate` (and when no snapshot existed, the optimistic step had not
changed the cache either). -/
theorem failedMutation_restores_cache (printerId : String)
    (command : PrinterCommand) (cache : Option (List Printer)) :
    failedMutationCache printerId command cache = cache := by
  cases cache <;> cases command <;> rfl

/-- Embeds `const slots = printer.ams_slots || []` from `PrinterCard`
(src/frontend/src/components/dashboard/PrinterCard.tsx line 118,
src/unnamed/part_014 line 168). -/
def dashboardSlots (ams_slots : Option (List AmsSlot)) : List AmsSlot :=
  ams_slots.getD []

/-- Embeds `amsDisplay` (PrinterCard.tsx lines 119-121):
`[0,1,2,3].map(idx => slots.find(s => s.slot_index === idx) || placeholder)`.
`none` stands for the placeholder `{ color_hex: undefined, material: 'Empty' }`. -/
def amsDisplay (ams_slots : Option (List AmsSlot)) : List (Option AmsSlot) :=
  [0, 1, 2, 3].map
    (fun idx => (dashboardSlots ams_slots).find? (fun s => s.slot_index == idx))

/-- `List.find?` returns the first element satisfying the test: the
returned element satisfies it, occurs at some position, and every earlier
position fails the test. -/
theorem find?_eq_some_first {α : Type} (p : α → Bool) :
    ∀ (l : List α) (a : α), l.find? p = some a →
      p a = true ∧ ∃ k, l.get? k = some a ∧
        ∀ j, j < k → ∀ t, l.get? j = some t → p t = false := by
  intro l
  induction l with
  | nil => intro a h; cases h
  | cons x xs ih =>
    intro a h
    by_cases hx : p x
    · rw [List.find?_cons_of_pos _ hx] at h
      obtain rfl : x = a := Option.some.inj h
      exact ⟨hx, 0, rfl, fun j hj => absurd hj (Nat.not_lt_zero j)⟩
    · rw [List.find?_cons_of_neg _ (by simpa using hx)] at h
      obtain ⟨hpa, k, hk, hfirst⟩ := ih a h
      refine ⟨hpa, k + 1, by simpa using hk, fun j hj t ht => ?_⟩
      cases j with
      | zero =>
        obtain rfl : x = t := Option.some.inj ht
        simpa using hx
      | succ j' =>
        exact hfirst j' (Nat.lt_of_succ_lt_succ hj) t (by simpa using ht)

/-- Claim C10: for every `ams_slots` input (including `undefined`, empty,
sparse or out-of-order lists) the AMS display list has exactly four
entries, entry `i` being the first slot whose `slot_index` equals `i`, or
the empty placeholder (`none`) when no slot has that index. -/
theorem amsDisplay_four_entries (o : Option (List AmsSlot)) (i : Nat)
    (hi : i < 4) :
    (amsDisplay o).length = 4 ∧
    (∀ s : AmsSlot, (amsDisplay o).get? i = some (some s) →
      s.slot_index = i ∧ ∃ k, (dashboardSlots o).get? k = some s ∧
        ∀ j, j < k → ∀ t, (dashboardSlots o).get? j = some t →
          t.slot_index ≠ i) ∧
    ((amsDisplay o).get? i = some none →
      ∀ s ∈ dashboardSlots o, s.slot_index ≠ i) := by
  have hget : (amsDisplay o).get? i =
      some ((dashboardSlots o).find? (fun s => s.slot_index == i)) := by
    interval_cases i <;> rfl
  refine ⟨by simp [amsDisplay], ?_, ?_⟩
  · intro s hs
    rw [hget] at hs
    have hfind : (dashboardSlots o).find? (fun s => s.slot_index == i) =
        some s := Option.some.inj hs
    obtain ⟨hp, k, hk, hfirst⟩ := find?_eq_some_first _ _ _ hfind
    refine ⟨by simpa using hp, k, hk, fun j hj t ht => ?_⟩
    simpa using hfirst j hj t ht
  · intro hnone s hs
    rw [hget] at hnone
    have hfind : (dashboardSlots o).find? (fun s => s.slot_index == i) =
        none := Option.some.inj hnone
    simpa using List.find?_eq_none.mp hfind s hs

/-- A loaded AMS slot with index 0, used to witness the display theorem. -/
def plaSlot : AmsSlot :=
  { id := none, ams_index := 0, slot_index := 0,
    color_hex := some "FF0000", material := some "PLA",
    remaining_percent := some (4/5) }

/-- Witness for `amsDisplay_four_entries` on a concrete one-slot list. -/
theorem amsDisplay_four_entries_witness :
    (amsDisplay (some [plaSlot])).length = 4 :=
  (amsDisplay_four_entries (some [plaSlot]) 0 (by norm_num)).1

/-- The printer state machine's states (spec §4.2); the frontend sees them
as the `current_status` strings of the same names. -/
inductive PrinterState where
  | IDLE
  | UPLOADING
  | PRINTING
  | COOLDOWN
  | CLEARING_BED
  | AWAITING_CLEARANCE
  | PAUSED
  | ERROR
  | OFFLINE
deriving DecidableEq, Repr

/-- Modelled from the spec: the backend `BedClearingService`
(app/services, documented in the architecture mapping of
src/unnamed/part_000 but absent from the source snapshot) polls bed
temperature while the device is in COOLDOWN and "proceeds to CLEARING_BED
only once temperature ≤ the device's configured thermal-release
threshold"; every other state is untouched by this poll. -/
def cooldownStep (thermal_release_temp : ℚ) (st : PrinterState)
    (bed_temp : ℚ) : PrinterState :=
  match st with
  | PrinterState.COOLDOWN =>
      if bed_temp ≤ thermal_release_temp then PrinterState.CLEARING_BED
      else PrinterState.COOLDOWN
  | s => s

/-- Modelled from the spec: feeding a telemetry bed-temperature sequence,
one observation at a time, through the COOLDOWN poll. -/
def cooldownRun (thermal_release_temp : ℚ) (st : PrinterState)
    (temps : List ℚ) : PrinterState :=
  temps.foldl (cooldownStep thermal_release_temp) st

/-- In COOLDOWN, a temperature sequence that stays strictly above the
threshold never moves the state. -/
theorem cooldownRun_stays_cooldown (threshold : ℚ) :
    ∀ (temps : List ℚ), (∀ t ∈ temps, threshold < t) →
      cooldownRun threshold PrinterState.COOLDOWN temps =
        PrinterState.COOLDOWN := by
  intro temps
  induction temps with
  | nil => intro _; rfl
  | cons t ts ih =>
    intro h
    have ht : threshold < t := h t (List.mem_cons_self t ts)
    have hts : ∀ t' ∈ ts, threshold < t' :=
      fun t' h' => h t' (List.mem_cons_of_mem t h')
    show cooldownRun threshold
        (cooldownStep threshold PrinterState.COOLDOWN t) ts =
      PrinterState.COOLDOWN
    have hstep : cooldownStep threshold PrinterState.COOLDOWN t =
        PrinterState.COOLDOWN := by
      simp [cooldownStep, not_le.mpr ht]
    rw [hstep]
    exact ih hts

/-- Claim C2: the device leaves COOLDOWN for CLEARING_BED only when an
observed bed temperature is at or below the thermal-release threshold, and
a temperature sequence that never drops to the threshold keeps the device
in COOLDOWN indefinitely. -/
theorem cooldown_thermal_gate (threshold temp : ℚ) (temps : List ℚ)
    (h : ∀ t ∈ temps, threshold < t) :
    (cooldownStep threshold PrinterState.COOLDOWN temp =
        PrinterState.CLEARING_BED → temp ≤ threshold) ∧
    cooldownRun threshold PrinterState.COOLDOWN temps =
      PrinterState.COOLDOWN := by
  constructor
  · intro hstep
    by_contra hgt
    simp [cooldownStep, hgt] at hstep
  · exact cooldownRun_stays_cooldown threshold temps h

/-- Witness for `cooldown_thermal_gate`: threshold 29 °C, a candidate
observation of 25 °C, and a hot telemetry sequence 60, 45, 30. -/
theorem cooldown_thermal_gate_witness :
    (cooldownStep 29 PrinterState.COOLDOWN 25 =
        PrinterState.CLEARING_BED → (25 : ℚ) ≤ 29) ∧
    cooldownRun 29 PrinterState.COOLDOWN [60, 45, 30] =
      PrinterState.COOLDOWN :=
  cooldown_thermal_gate 29 25 [60, 45, 30]
    (by intro t ht; fin_cases ht <;> norm_num)

/-- Modelled from the spec: the Dispatcher's filament-compatibility test
(backend `dispatcher.py`, named in src/unnamed/part_000 but absent from
the snapshot).  Spec §4.1: a job's requirement is satisfiable by a slot
when "material type and color must both match; color match is exact, not
closest".  The job's requirement fields are the `required_material` and
`required_color_hex` of the `Job` interface in filament.ts. -/
def slotMatchesRequirement (job : Job) (slot : AmsSlot) : Bool :=
  slot.material == some job.required_material &&
    slot.color_hex == job.required_color_hex

/-- Modelled from the spec: a device can run a job when at least one of
its current material slots satisfies the job's filament requirement. -/
def deviceCanRunJob (ams_slots : List AmsSlot) (job : Job) : Bool :=
  ams_slots.any (slotMatchesRequirement job)

/-- Modelled from the spec: the set of PENDING jobs a device is eligible
for on a scheduling tick (spec §4.1 step 2). -/
def eligiblePendingJobs (ams_slots : List AmsSlot) (jobs : List Job) :
    List Job :=
  jobs.filter (fun j => j.status == "PENDING" && deviceCanRunJob ams_slots j)

/-- Modelled from the spec: one scheduling tick assigns the device the
first eligible pending job of the queue (the queue is ordered
first-created, first-served; a device takes at most one job per tick). -/
def dispatchTick (ams_slots : List AmsSlot) (jobs : List Job) :
    Option Job :=
  (eligiblePendingJobs ams_slots jobs).head?

/-- Claim C6: the Dispatcher never assigns a job to a device when the
job's required (material, color) pair is absent from every slot of that
device. -/
theorem dispatcher_exact_material_match (ams_slots : List AmsSlot)
    (jobs : List Job) (j : Job)
    (h : ∀ sl ∈ ams_slots, slotMatchesRequirement j sl = false) :
    dispatchTick ams_slots jobs ≠ some j := by
  intro hassign
  have hmem : j ∈ eligiblePendingJobs ams_slots jobs := by
    unfold dispatchTick at hassign
    cases hel : eligiblePendingJobs ams_slots jobs with
    | nil => rw [hel] at hassign; cases hassign
    | cons x xs =>
      rw [hel] at hassign
      obtain rfl : x = j := Option.some.inj hassign
      exact List.mem_cons_self x xs
  have hpred := (List.mem_filter.mp hmem).2
  have hrun : deviceCanRunJob ams_slots j = true := by
    simpa using (Bool.and_eq_true _ _ |>.mp hpred).2
  obtain ⟨sl, hsl, hmatch⟩ := List.any_eq_true.mp hrun
  rw [h sl hsl] at hmatch
  cases hmatch

/-- A PENDING job requiring red PLA. -/
def redPlaJob : Job :=
  { id := 1, file_path := "benchy.gcode", printer_id := none,
    status := "PENDING", required_material := "PLA",
    required_color_hex := some "FF0000", used_ams_slot := none,
    started_at := none, finished_at := none,
    created_at := "2025-01-01T00:00:00Z" }

/-- A slot loaded with black PETG, which cannot satisfy `redPlaJob`. -/
def petgSlot : AmsSlot :=
  { id := none, ams_index := 0, slot_index := 1,
    color_hex := some "000000", material := some "PETG",
    remaining_percent := some (1/2) }

/-- Witness for `dispatcher_exact_material_match` on a concrete device
whose only slot mismatches the job's requirement. -/
theorem dispatcher_exact_material_match_witness :
    dispatchTick [petgSlot] [redPlaJob] ≠ some redPlaJob :=
  dispatcher_exact_material_match [petgSlot] [redPlaJob] redPlaJob
    (by intro sl hsl; fin_cases hsl; rfl)
